import Mathlib

/-!
Shallow embedding of tigerabrodi/react-context-selector.

The repository is a small React library: a `Store` holding a state value and
a set of listener callbacks (src/create-context, given here as
src/unnamed/part_000), and a hook `useContextSelector` that memoizes a
selected slice of the state per binding, re-delivering only when a
caller-supplied (or default `Object.is`) comparison judges the freshly
derived value unequal to the last delivered one (src/hooks, given here as
src/unnamed/part_002, lines 83-148).  Debug logging goes through
`debugLogger` (src/utils).

JavaScript runtime values are embedded as the inductive `JSValue`: object
references are carried by identity (a `Nat` id), so equality of `JSValue`
terms coincides with JavaScript referential / primitive identity, with
`NaN`, `+0` and `-0` given distinct constructors so that both `Object.is`
and the distinctions it draws are expressible.

Mutable state is made explicit: `setState` returns the updated store
together with the list of notified listeners; the anonymous `getSnapshot`
closure inside `useContextSelector` becomes `useContextSelectorStep`, a
function from the binding's ref cell and the store to the delivered value,
the updated ref cell and the list of emitted debug events.
-/

namespace ReactContextSelector

/-- Embedded JavaScript numeric values: `NaN`, the two signed zeros, and all
other (integral stand-in) numbers.  Keeping `NaN`, `+0`, `-0` as separate
constructors lets `Object.is` semantics be stated exactly. -/
inductive JSNumber where
  | nan : JSNumber
  | posZero : JSNumber
  | negZero : JSNumber
  | intVal : Int → JSNumber
deriving DecidableEq, Repr

/-- Embedded JavaScript runtime values.  `ref id` is an object reference,
identified by identity id: two `ref` values are the same JavaScript object
exactly when their ids coincide, so structural equality of `JSValue` is
referential / primitive identity of the embedded values. -/
inductive JSValue where
  | num : JSNumber → JSValue
  | str : String → JSValue
  | boolean : Bool → JSValue
  | ref : Nat → JSValue
  | null : JSValue
  | undef : JSValue
deriving DecidableEq, Repr

/-- SameValue on numbers, as used by `Object.is` (ECMA-262): `NaN` equals
`NaN`, `+0` does not equal `-0`, other numbers compare by value. -/
def sameValueNumber : JSNumber → JSNumber → Bool
  | JSNumber.nan, JSNumber.nan => true
  | JSNumber.posZero, JSNumber.posZero => true
  | JSNumber.negZero, JSNumber.negZero => true
  | JSNumber.intVal m, JSNumber.intVal n => m == n
  | _, _ => false

/-- Embedding of `Object.is` (the default comparison at src/unnamed/part_002,
line 90: `options.compare ?? Object.is`). -/
def objectIs : JSValue → JSValue → Bool
  | JSValue.num m, JSValue.num n => sameValueNumber m n
  | JSValue.str a, JSValue.str b => a == b
  | JSValue.boolean a, JSValue.boolean b => a == b
  | JSValue.ref a, JSValue.ref b => a == b
  | JSValue.null, JSValue.null => true
  | JSValue.undef, JSValue.undef => true
  | _, _ => false

/-- Debug configuration `{name, enabled}` (src/types.ts `DebugOptions`, and
the `debug` field of the hook's `Options`). -/
structure DebugOptions where
  name : String
  enabled : Bool
deriving DecidableEq, Repr

/-- The hook's `Options<Selected>` record (src/unnamed/part_002, lines
31-37): an optional comparison and optional debug configuration. -/
structure SelectorOptions where
  compare : Option (JSValue → JSValue → Bool)
  debug : Option DebugOptions

/-- Line 90 of src/unnamed/part_002: `const compare = options.compare ?? Object.is`. -/
def resolveCompare (options : SelectorOptions) : JSValue → JSValue → Bool :=
  match options.compare with
  | some c => c
  | none => objectIs

/-- The `LogStatus` union of src/utils.  The selector-side revision
(src/unnamed/part_002, lines 1-4) declares the last three; the store-side
revision (src/unnamed/part_001, lines 1-5) also declares `State Update`. -/
inductive LogStatus where
  | stateUpdate : LogStatus
  | newSelectedState : LogStatus
  | noNewSelectedState : LogStatus
  | initialRender : LogStatus
deriving DecidableEq, Repr

/-- One `debugLogger` call (src/unnamed/part_001, lines 7-25): name tag,
previous value, next value, listener count and status. -/
structure LogEvent where
  name : String
  prevState : JSValue
  nextState : JSValue
  listeners : Nat
  status : LogStatus
deriving DecidableEq, Repr

/-- Truthiness of `options.debug?.enabled`. -/
def debugEnabled : Option DebugOptions → Bool
  | some d => d.enabled
  | none => false

/-- The `options.debug.name` read inside an enabled-debug branch (`""` is
never read: the source only reads `name` when `debug` is present). -/
def debugName : Option DebugOptions → String
  | some d => d.name
  | none => ""

/-- The `Store<State>` record (src/src/types.ts, lines 3-9): the current
state and the `Set` of listener callbacks.  Callbacks are embedded by
identity ids; the list is kept insertion-ordered and duplicate-free,
matching JavaScript `Set` semantics (membership by identity). -/
structure Store where
  state : JSValue
  listeners : List Nat
deriving DecidableEq, Repr

/-- Method `subscribe` (src/unnamed/part_000, lines 47-51):
`store.listeners.add(listener)`.  A JavaScript `Set` adds the value only if
it is not already a member (SameValueZero, which on functions is identity). -/
def subscribe (store : Store) (listener : Nat) : Store :=
  if listener ∈ store.listeners then store
  else { store with listeners := store.listeners ++ [listener] }

/-- The cleanup closure returned by `subscribe` (src/unnamed/part_000, line
50): `() => store.listeners.delete(listener)`.  `Set.delete` removes the
value if present. -/
def unsubscribe (store : Store) (listener : Nat) : Store :=
  { store with listeners := store.listeners.filter (fun l => l ≠ listener) }

/-- Method `getSnapshot` (src/unnamed/part_000, lines 53-55). -/
def getSnapshot (store : Store) : JSValue :=
  store.state

/-- Method `setState` of the current `createSelectContext` (src/unnamed/
part_000, lines 40-45): computes `fn(store.state)`, assigns it
unconditionally, then calls every listener (`forEach`).  The returned list
is the notification pass: the listeners invoked, in set order. -/
def setState (store : Store) (fn : JSValue → JSValue) : Store × List Nat :=
  let nextState := fn store.state
  ({ store with state := nextState }, store.listeners)

/-- Method `setState` of the debug-enabled `createSelectContext` revision
(src/unnamed/part_000, lines 83-99): saves `prevState`, assigns the next
state, and — when `debug?.enabled` — emits one `State Update` event before
notifying.  Note the source has no development-mode check on this path. -/
def setStateWithDebug (debug : Option DebugOptions) (store : Store)
    (fn : JSValue → JSValue) : Store × List Nat × List LogEvent :=
  let prevState := store.state
  let nextState := fn store.state
  let events :=
    if debugEnabled debug then
      [{ name := debugName debug, prevState := prevState,
         nextState := nextState, listeners := store.listeners.length,
         status := LogStatus.stateUpdate }]
    else ([] : List LogEvent)
  ({ store with state := nextState }, store.listeners, events)

/-- One run of the anonymous `getSnapshot` closure passed to
`useSyncExternalStore` inside `useContextSelector` (src/unnamed/part_002,
lines 100-141), executed on every store notification.  `prevRef` is
`previousSelectedStateRef.current` (initially `null`); `isDev` is
`isDevelopment()`.  Returns the value delivered to the observer, the new
contents of the ref cell, and the debug events emitted.  Control flow
mirrors the source: if the ref is not `null`, compare and either adopt the
next selected state (updating the ref before logging, as the source does)
or return the ref unchanged; otherwise take the first-render branch. -/
def useContextSelectorStep (selector : JSValue → JSValue)
    (options : SelectorOptions) (isDev : Bool) (store : Store)
    (prevRef : JSValue) : JSValue × JSValue × List LogEvent :=
  let nextSelectedState := selector (getSnapshot store)
  let compare := resolveCompare options
  if prevRef ≠ JSValue.null then
    let shouldUpdateState := !(compare prevRef nextSelectedState)
    if shouldUpdateState then
      let prevRefUpdated := nextSelectedState
      let events :=
        if debugEnabled options.debug && isDev then
          [{ name := debugName options.debug, prevState := prevRefUpdated,
             nextState := nextSelectedState,
             listeners := store.listeners.length,
             status := LogStatus.newSelectedState }]
        else ([] : List LogEvent)
      (nextSelectedState, prevRefUpdated, events)
    else
      (prevRef, prevRef, ([] : List LogEvent))
  else
    let events :=
      if debugEnabled options.debug && isDev then
        [{ name := debugName options.debug, prevState := JSValue.null,
           nextState := nextSelectedState,
           listeners := store.listeners.length,
           status := LogStatus.initialRender }]
      else ([] : List LogEvent)
    (nextSelectedState, nextSelectedState, events)

/-- The guard at the head of `useContextSelector` (src/unnamed/part_002,
lines 88-94): `useContext` yields the provided store or `null`; `if
(!store) throw new Error('Context Provider is missing')`. -/
def useContextSelectorResolveStore (contextValue : Option Store) :
    Except String Store :=
  match contextValue with
  | none => Except.error "Context Provider is missing"
  | some store => Except.ok store

/-- The guard at the head of `useContextSetState` (src/unnamed/part_002,
lines 165-175): same `null` check; on success the hook returns the store's
`setState` capability, embedded here as the store itself. -/
def useContextSetStateResolveStore (contextValue : Option Store) :
    Except String Store :=
  match contextValue with
  | none => Except.error "Context Provider is missing"
  | some store => Except.ok store

theorem sameValueNumber_iff (m n : JSNumber) :
    sameValueNumber m n = true ↔ m = n := by
  cases m <;> cases n <;> simp [sameValueNumber]

theorem objectIs_iff (v w : JSValue) : objectIs v w = true ↔ v = w := by
  cases v <;> cases w <;> simp [objectIs, sameValueNumber_iff]

/-- Claim C3: `setState` assigns `fn(state)` unconditionally (no equality
check of any kind appears: the notified-listener list equals the full
listener set whatever `fn` returns, including `fn state = state`), and
`getSnapshot` immediately afterwards returns exactly the value the
transition produced, with no intermediate state observable. -/
theorem C3_setState_unconditional (store : Store) (fn : JSValue → JSValue) :
    (setState store fn).1.state = fn store.state ∧
    (setState store fn).2 = store.listeners ∧
    getSnapshot (setState store fn).1 = fn store.state :=
  ⟨rfl, rfl, rfl⟩

/-- Claim C5: the default comparison (when no `compare` option is supplied)
is `Object.is`: it judges `NaN` equal to `NaN`, judges `+0` not equal to
`-0`, and in general judges two embedded values equal exactly when they are
referentially / primitively identical (structural equality of `JSValue`). -/
theorem C5_default_equality :
    (∀ d : Option DebugOptions,
      resolveCompare { compare := none, debug := d } = objectIs) ∧
    objectIs (JSValue.num JSNumber.nan) (JSValue.num JSNumber.nan) = true ∧
    objectIs (JSValue.num JSNumber.posZero) (JSValue.num JSNumber.negZero) = false ∧
    ∀ v w : JSValue, objectIs v w = true ↔ v = w :=
  ⟨fun _ => rfl, rfl, rfl, objectIs_iff⟩

/-- Claim C9: invoking `useContextSelector` or `useContextSetState` with a
`null` context value (no Provider) raises the fatal missing-store error
`Context Provider is missing`; with a store in scope neither raises. -/
theorem C9_missing_store_error :
    useContextSelectorResolveStore none
      = Except.error "Context Provider is missing" ∧
    useContextSetStateResolveStore none
      = Except.error "Context Provider is missing" ∧
    ∀ store : Store,
      useContextSelectorResolveStore (some store) = Except.ok store ∧
      useContextSetStateResolveStore (some store) = Except.ok store :=
  ⟨rfl, rfl, fun _ => ⟨rfl, rfl⟩⟩

/-- Claim C10: the unset last-delivered state is encoded as the value
`null`: whenever the ref holds `null`, the first-derivation branch runs —
the comparison is never consulted (the step's outcome is identical for any
two `compare` options), the freshly derived value is unconditionally stored
and returned, and memoization is skipped. -/
theorem C10_null_sentinel (selector : JSValue → JSValue)
    (c₁ c₂ : Option (JSValue → JSValue → Bool)) (debug : Option DebugOptions)
    (isDev : Bool) (store : Store) :
    useContextSelectorStep selector { compare := c₁, debug := debug } isDev
        store JSValue.null
      = useContextSelectorStep selector { compare := c₂, debug := debug } isDev
        store JSValue.null ∧
    (useContextSelectorStep selector { compare := c₁, debug := debug } isDev
        store JSValue.null).1 = selector (getSnapshot store) ∧
    (useContextSelectorStep selector { compare := c₁, debug := debug } isDev
        store JSValue.null).2.1 = selector (getSnapshot store) := by
  unfold useContextSelectorStep
  simp

/-- Claim C2, counterexample: subscribing listener `5` twice on a fresh
store leaves ONE registration, not two — `listeners` is a JavaScript `Set`,
which de-duplicates by identity — and invoking the unsubscribe capability
returned by either call leaves no registration behind, so the other
registration is not left in place. -/
theorem C2_counterexample :
    (subscribe (subscribe
        { state := JSValue.num (JSNumber.intVal 0), listeners := [] } 5)
        5).listeners = [5] ∧
    (subscribe (subscribe
        { state := JSValue.num (JSNumber.intVal 0), listeners := [] } 5)
        5).listeners.length ≠ 2 ∧
    (unsubscribe (subscribe (subscribe
        { state := JSValue.num (JSNumber.intVal 0), listeners := [] } 5) 5)
        5).listeners = [] := by
  decide

/-- Claim C2 (amended): calling `subscribe` twice with the same callback
value yields a single registration — the listener `Set` de-duplicates by
identity, so the second call is a no-op — and invoking the unsubscribe
capability returned by either call removes that single shared registration
entirely. -/
theorem C2_subscribe_dedup (store : Store) (listener : Nat) :
    subscribe (subscribe store listener) listener = subscribe store listener ∧
    listener ∉ (unsubscribe (subscribe (subscribe store listener) listener)
      listener).listeners := by
  constructor
  · by_cases hm : listener ∈ store.listeners
    · simp [subscribe, hm]
    · simp [subscribe, hm]
  · simp [unsubscribe, List.mem_filter]

/-- Claim C4: if the last-delivered value is not the unset sentinel and the
effective comparison judges it equal to the freshly derived value, the step
returns exactly the last-delivered value (identical as a `JSValue`, i.e.
referentially the same embedded value) and leaves the ref cell unchanged. -/
theorem C4_delivered_value_stability (selector : JSValue → JSValue)
    (options : SelectorOptions) (isDev : Bool) (store : Store)
    (prevRef : JSValue) (hne : prevRef ≠ JSValue.null)
    (heq : resolveCompare options prevRef (selector (getSnapshot store)) = true) :
    (useContextSelectorStep selector options isDev store prevRef).1 = prevRef ∧
    (useContextSelectorStep selector options isDev store prevRef).2.1 = prevRef := by
  unfold useContextSelectorStep
  simp [hne, heq]

/-- Witness for C4 at a concrete input: last-delivered value `ref 3`, a
selector re-deriving the same reference, default comparison. -/
theorem C4_delivered_value_stability_witness :
    ((JSValue.ref 3 : JSValue) ≠ JSValue.null) ∧
    resolveCompare { compare := none, debug := none } (JSValue.ref 3)
      ((fun _ => JSValue.ref 3)
        (getSnapshot { state := JSValue.num JSNumber.posZero, listeners := [8] })) = true ∧
    ((useContextSelectorStep (fun _ => JSValue.ref 3)
        { compare := none, debug := none } true
        { state := JSValue.num JSNumber.posZero, listeners := [8] }
        (JSValue.ref 3)).1 = JSValue.ref 3 ∧
      (useContextSelectorStep (fun _ => JSValue.ref 3)
        { compare := none, debug := none } true
        { state := JSValue.num JSNumber.posZero, listeners := [8] }
        (JSValue.ref 3)).2.1 = JSValue.ref 3) :=
  ⟨by decide, by decide,
    C4_delivered_value_stability (fun _ => JSValue.ref 3)
      { compare := none, debug := none } true
      { state := JSValue.num JSNumber.posZero, listeners := [8] }
      (JSValue.ref 3) (by decide) (by decide)⟩

/-- Claim C1, counterexample: two bindings over one store, mutation from
state `0` to state `1`.  Binding-1 derives `null` from state `0` (and has
delivered it), derives `ref 7` from state `1`, and its equality judges the
two derivations equal; binding-2 is the identity with `Object.is`, which
judges them unequal.  After the mutation, binding-1 nevertheless
re-delivers the changed value `ref 7` — its last-delivered value `null`
collides with the unset sentinel, so the first-render branch re-runs and
the equality is never consulted — refuting the claim as universally
stated. -/
theorem C1_counterexample :
    ((fun _ _ => true) : JSValue → JSValue → Bool)
        ((fun v => if v = JSValue.num (JSNumber.intVal 0) then JSValue.null
            else JSValue.ref 7) (JSValue.num (JSNumber.intVal 0)))
        ((fun v => if v = JSValue.num (JSNumber.intVal 0) then JSValue.null
            else JSValue.ref 7) (JSValue.num (JSNumber.intVal 1))) = true ∧
    objectIs ((fun v => v) (JSValue.num (JSNumber.intVal 0)))
        ((fun v => v) (JSValue.num (JSNumber.intVal 1))) = false ∧
    (useContextSelectorStep
        (fun v => if v = JSValue.num (JSNumber.intVal 0) then JSValue.null
            else JSValue.ref 7)
        { compare := some (fun _ _ => true), debug := none } false
        { state := JSValue.num (JSNumber.intVal 0), listeners := [] }
        JSValue.null).1 = JSValue.null ∧
    (useContextSelectorStep
        (fun v => if v = JSValue.num (JSNumber.intVal 0) then JSValue.null
            else JSValue.ref 7)
        { compare := some (fun _ _ => true), debug := none } false
        (setState { state := JSValue.num (JSNumber.intVal 0), listeners := [] }
          (fun _ => JSValue.num (JSNumber.intVal 1))).1
        JSValue.null).1 = JSValue.ref 7 ∧
    JSValue.ref 7 ≠ JSValue.null := by
  decide

/-- Claim C1 (amended): for a mutation from state `S` to `f S`, if
binding-1's last-delivered value `d₁ S` is NOT the `null` sentinel and its
equality judges `d₁ S` and `d₁ (f S)` equal, while binding-2's equality
judges `d₂ S` and `d₂ (f S)` unequal, then on the post-mutation
notification binding-1 returns its previously delivered value with its ref
cell unchanged, while binding-2 delivers the newly derived value (this side
needs no sentinel hypothesis).  Each step consumes only its own ref cell,
so the two decisions are independent. -/
theorem C1_selective_notification
    (store : Store) (f : JSValue → JSValue)
    (d₁ d₂ : JSValue → JSValue) (e₁ e₂ : JSValue → JSValue → Bool)
    (dbg₁ dbg₂ : Option DebugOptions) (isDev : Bool)
    (h₁null : d₁ store.state ≠ JSValue.null)
    (h₁eq : e₁ (d₁ store.state) (d₁ (f store.state)) = true)
    (h₂ne : e₂ (d₂ store.state) (d₂ (f store.state)) = false) :
    (useContextSelectorStep d₁ { compare := some e₁, debug := dbg₁ } isDev
        (setState store f).1 (d₁ store.state)).1 = d₁ store.state ∧
    (useContextSelectorStep d₁ { compare := some e₁, debug := dbg₁ } isDev
        (setState store f).1 (d₁ store.state)).2.1 = d₁ store.state ∧
    (useContextSelectorStep d₂ { compare := some e₂, debug := dbg₂ } isDev
        (setState store f).1 (d₂ store.state)).1 = d₂ (f store.state) ∧
    (useContextSelectorStep d₂ { compare := some e₂, debug := dbg₂ } isDev
        (setState store f).1 (d₂ store.state)).2.1 = d₂ (f store.state) := by
  refine ⟨?_, ?_, ?_, ?_⟩
  · unfold useContextSelectorStep
    simp [setState, getSnapshot, resolveCompare, h₁null, h₁eq]
  · unfold useContextSelectorStep
    simp [setState, getSnapshot, resolveCompare, h₁null, h₁eq]
  · unfold useContextSelectorStep
    by_cases h₂null : d₂ store.state = JSValue.null
    · simp [setState, getSnapshot, h₂null]
    · simp [setState, getSnapshot, resolveCompare, h₂null, h₂ne]
  · unfold useContextSelectorStep
    by_cases h₂null : d₂ store.state = JSValue.null
    · simp [setState, getSnapshot, h₂null]
    · simp [setState, getSnapshot, resolveCompare, h₂null, h₂ne]

/-- Witness for the amended C1 at a concrete input: mutation from `0` to
`1`; binding-1 derives the constant `ref 4` (judged equal by `Object.is`),
binding-2 is the identity (judged unequal by `Object.is`). -/
theorem C1_selective_notification_witness :
    ((fun _ => JSValue.ref 4)
        (Store.state { state := JSValue.num (JSNumber.intVal 0), listeners := [2] })
        ≠ JSValue.null) ∧
    objectIs ((fun _ => JSValue.ref 4) (JSValue.num (JSNumber.intVal 0)))
        ((fun _ => JSValue.ref 4) (JSValue.num (JSNumber.intVal 1))) = true ∧
    objectIs ((fun v => v) (JSValue.num (JSNumber.intVal 0)))
        ((fun v => v) (JSValue.num (JSNumber.intVal 1))) = false ∧
    ((useContextSelectorStep (fun _ => JSValue.ref 4)
        { compare := some objectIs, debug := none } false
        (setState { state := JSValue.num (JSNumber.intVal 0), listeners := [2] }
          (fun _ => JSValue.num (JSNumber.intVal 1))).1
        ((fun _ => JSValue.ref 4) (JSValue.num (JSNumber.intVal 0)))).1
        = (fun _ => JSValue.ref 4) (JSValue.num (JSNumber.intVal 0)) ∧
      (useContextSelectorStep (fun _ => JSValue.ref 4)
        { compare := some objectIs, debug := none } false
        (setState { state := JSValue.num (JSNumber.intVal 0), listeners := [2] }
          (fun _ => JSValue.num (JSNumber.intVal 1))).1
        ((fun _ => JSValue.ref 4) (JSValue.num (JSNumber.intVal 0)))).2.1
        = (fun _ => JSValue.ref 4) (JSValue.num (JSNumber.intVal 0)) ∧
      (useContextSelectorStep (fun v => v)
        { compare := some objectIs, debug := none } false
        (setState { state := JSValue.num (JSNumber.intVal 0), listeners := [2] }
          (fun _ => JSValue.num (JSNumber.intVal 1))).1
        ((fun v => v) (JSValue.num (JSNumber.intVal 0)))).1
        = (fun v => v) ((fun _ => JSValue.num (JSNumber.intVal 1))
            (JSValue.num (JSNumber.intVal 0))) ∧
      (useContextSelectorStep (fun v => v)
        { compare := some objectIs, debug := none } false
        (setState { state := JSValue.num (JSNumber.intVal 0), listeners := [2] }
          (fun _ => JSValue.num (JSNumber.intVal 1))).1
        ((fun v => v) (JSValue.num (JSNumber.intVal 0)))).2.1
        = (fun v => v) ((fun _ => JSValue.num (JSNumber.intVal 1))
            (JSValue.num (JSNumber.intVal 0)))) :=
  ⟨by decide, by decide, by decide,
    C1_selective_notification
      { state := JSValue.num (JSNumber.intVal 0), listeners := [2] }
      (fun _ => JSValue.num (JSNumber.intVal 1))
      (fun _ => JSValue.ref 4) (fun v => v) objectIs objectIs
      none none false (by decide) (by decide) (by decide)⟩

/-- Claim C6, counterexample: debug enabled (name `X`), development mode, a
non-`null` last-delivered value `1`, and a mutation after which the default
comparison judges the freshly derived `1` equal to it.  The equal branch of
the current hook (src/unnamed/part_002, lines 124-125) returns the ref
without logging: the emitted event list is empty, so no event with status
`No New Selected State` is emitted, let alone exactly one. -/
theorem C6_counterexample :
    (useContextSelectorStep (fun _ => JSValue.num (JSNumber.intVal 1))
        { compare := none, debug := some { name := "X", enabled := true } }
        true
        { state := JSValue.num (JSNumber.intVal 5), listeners := [11] }
        (JSValue.num (JSNumber.intVal 1))).2.2 = [] := by
  decide

/-- Claim C6 (amended): in the current hook, a mutation whose derived value
the effective comparison judges equal to the (non-`null`) last-delivered
value emits NO diagnostic event at all — the `No New Selected State` status
is declared in src/unnamed/part_002 (line 3) but never emitted there (an
earlier revision, src/unnamed/part_003 lines 79-89, did emit it). -/
theorem C6_equal_branch_emits_nothing (selector : JSValue → JSValue)
    (options : SelectorOptions) (isDev : Bool) (store : Store)
    (prevRef : JSValue) (hne : prevRef ≠ JSValue.null)
    (heq : resolveCompare options prevRef (selector (getSnapshot store)) = true) :
    (useContextSelectorStep selector options isDev store prevRef).2.2 = [] := by
  unfold useContextSelectorStep
  simp [hne, heq]

/-- Witness for the amended C6 at a concrete input: debug enabled, in
development mode, last-delivered `1`, selector re-deriving `1`. -/
theorem C6_equal_branch_emits_nothing_witness :
    ((JSValue.num (JSNumber.intVal 1) : JSValue) ≠ JSValue.null) ∧
    resolveCompare
        { compare := none, debug := some { name := "Y", enabled := true } }
        (JSValue.num (JSNumber.intVal 1))
        ((fun _ => JSValue.num (JSNumber.intVal 1))
          (getSnapshot
            { state := JSValue.num (JSNumber.intVal 6), listeners := [1, 2] }))
        = true ∧
    (useContextSelectorStep (fun _ => JSValue.num (JSNumber.intVal 1))
        { compare := none, debug := some { name := "Y", enabled := true } }
        true
        { state := JSValue.num (JSNumber.intVal 6), listeners := [1, 2] }
        (JSValue.num (JSNumber.intVal 1))).2.2 = [] :=
  ⟨by decide, by decide,
    C6_equal_branch_emits_nothing (fun _ => JSValue.num (JSNumber.intVal 1))
      { compare := none, debug := some { name := "Y", enabled := true } }
      true
      { state := JSValue.num (JSNumber.intVal 6), listeners := [1, 2] }
      (JSValue.num (JSNumber.intVal 1)) (by decide) (by decide)⟩

/-- Claim C7, counterexample: the debug-enabled store revision
(src/unnamed/part_000, lines 88-96) emits its `State Update` event on the
strength of `debug?.enabled` alone — the embedded source consults no
development-mode flag on that path, so with `enabled := true` one event is
emitted in every deployment mode, refuting `zero diagnostic events are
emitted by ANY operation outside the designated debug mode`. -/
theorem C7_counterexample :
    (setStateWithDebug (some { name := "X", enabled := true })
        { state := JSValue.num (JSNumber.intVal 0), listeners := [] }
        (fun v => v)).2.2
      = [{ name := "X", prevState := JSValue.num (JSNumber.intVal 0),
           nextState := JSValue.num (JSNumber.intVal 0), listeners := 0,
           status := LogStatus.stateUpdate }] := by
  decide

/-- Claim C7 (amended): every binding-side emission (first derivation,
equal or unequal re-derivation) is gated by both the enabled flag and the
development-mode check, so outside development mode the binding emits
nothing regardless of the flag; the debug-enabled store revision, however,
gates its `State Update` emission on the enabled flag alone, emitting it
irrespective of deployment mode (and the current store revision has no
diagnostics at all). -/
theorem C7_gating (selector : JSValue → JSValue) (options : SelectorOptions)
    (store : Store) (prevRef : JSValue) (d : DebugOptions)
    (f : JSValue → JSValue) :
    (useContextSelectorStep selector options false store prevRef).2.2 = [] ∧
    (setStateWithDebug (some d) store f).2.2
      = (if d.enabled then
          [{ name := d.name, prevState := store.state,
             nextState := f store.state, listeners := store.listeners.length,
             status := LogStatus.stateUpdate }]
        else []) := by
  constructor
  · unfold useContextSelectorStep
    by_cases hnull : prevRef = JSValue.null
    · simp [hnull]
    · by_cases hcmp : resolveCompare options prevRef
        (selector (getSnapshot store)) = true
      · simp [hnull, hcmp]
      · simp [hnull, hcmp]
  · unfold setStateWithDebug
    cases hd : d.enabled <;> simp [hd, debugEnabled, debugName]

/-- Claim C8, failing input evaluated on the code: last-delivered value
`1`, selector deriving `2`, default comparison (judging them unequal),
debug enabled in development mode.  The source assigns
`previousSelectedStateRef.current = nextSelectedState` BEFORE logging, so
the emitted `New Selected State` event carries `prevState = 2` — the newly
derived value — and not the previously delivered value `1` the claim (and
the logger's own `Prev:` label) promises. -/
theorem C8_prevState_is_next :
    (useContextSelectorStep (fun _ => JSValue.num (JSNumber.intVal 2))
        { compare := none, debug := some { name := "X", enabled := true } }
        true
        { state := JSValue.num (JSNumber.intVal 9), listeners := [3] }
        (JSValue.num (JSNumber.intVal 1))).2.2
      = [{ name := "X", prevState := JSValue.num (JSNumber.intVal 2),
           nextState := JSValue.num (JSNumber.intVal 2), listeners := 1,
           status := LogStatus.newSelectedState }] ∧
    JSValue.num (JSNumber.intVal 2) ≠ JSValue.num (JSNumber.intVal 1) := by
  decide

end ReactContextSelector
